import Mathlib

/-!
Verification of the ntgrrc switch-management core: a shallow embedding, in
Lean 4, of the authentication and session engine of the ntgrrc repository
(model detection, password cipher, token stores, login protocols and the
authenticated-request dispatch), together with theorems settling the stated
claims about it.

Go strings are modelled as `List Char` (named `GStr` below) for text
processing, and as `List Nat` of byte values where the Go code indexes raw
bytes (the password cipher).  Machine integers are modelled as `Nat` with
explicit reduction modulo 2^32 (written with a 32-bit mask) where overflow
matters.
-/

namespace Ntgrrc

/-- Go-style strings as lists of characters. -/
abbrev GStr := List Char

/-- Literal helper: the character list of a Lean string literal. -/
def gs (s : String) : GStr := s.data

/-- UTF-8 bytes of one character (as Go `string` indexing sees them). -/
def charUtf8 (c : Char) : List Nat :=
  let n := c.toNat
  if n < 128 then [n]
  else if n < 2048 then [192 + n / 64, 128 + n % 64]
  else if n < 65536 then [224 + n / 4096, 128 + n / 64 % 64, 128 + n % 64]
  else [240 + n / 262144, 128 + n / 4096 % 64, 128 + n / 64 % 64, 128 + n % 64]

/-- The byte sequence of a character list (UTF-8, as Go stores strings). -/
def strBytes (s : GStr) : List Nat := s.flatMap charUtf8

/-- Byte-literal helper for ASCII string literals. -/
def gbytes (s : String) : List Nat := strBytes (gs s)

/-! ### MD5 (the `crypto/md5` digest used by `EncryptPasswordWithSeed`)

A byte-level executable translation of the standard MD5 algorithm, which is
the digest the Go standard library computes.  All 32-bit arithmetic is `Nat`
arithmetic masked to 32 bits. -/

/-- The 64 MD5 sine-derived round constants. -/
def md5K : List Nat :=
  [3614090360, 3905402710, 606105819, 3250441966, 4118548399, 1200080426, 2821735955, 4249261313,
   1770035416, 2336552879, 4294925233, 2304563134, 1804603682, 4254626195, 2792965006, 1236535329,
   4129170786, 3225465664, 643717713, 3921069994, 3593408605, 38016083, 3634488961, 3889429448,
   568446438, 3275163606, 4107603335, 1163531501, 2850285829, 4243563512, 1735328473, 2368359562,
   4294588738, 2272392833, 1839030562, 4259657740, 2763975236, 1272893353, 4139469664, 3200236656,
   681279174, 3936430074, 3572445317, 76029189, 3654602809, 3873151461, 530742520, 3299628645,
   4096336452, 1126891415, 2878612391, 4237533241, 1700485571, 2399980690, 4293915773, 2240044497,
   1873313359, 4264355552, 2734768916, 1309151649, 4149444226, 3174756917, 718787259, 3951481745]

/-- The 64 MD5 per-round left-rotation amounts. -/
def md5S : List Nat :=
  [7, 12, 17, 22, 7, 12, 17, 22, 7, 12, 17, 22, 7, 12, 17, 22,
   5, 9, 14, 20, 5, 9, 14, 20, 5, 9, 14, 20, 5, 9, 14, 20,
   4, 11, 16, 23, 4, 11, 16, 23, 4, 11, 16, 23, 4, 11, 16, 23,
   6, 10, 15, 21, 6, 10, 15, 21, 6, 10, 15, 21, 6, 10, 15, 21]

/-- Truncation of a `Nat` to its low 32 bits (reduction modulo 2^32). -/
def mask32 (x : Nat) : Nat := x &&& 4294967295

/-- 32-bit bitwise complement. -/
def bnot32 (x : Nat) : Nat := x ^^^ 4294967295

/-- 32-bit left rotation. -/
def rotl32 (x c : Nat) : Nat := mask32 (x <<< c) ||| (x >>> (32 - c))

/-- Little-endian decomposition of a `Nat` into `k` bytes. -/
def toLE : Nat → Nat → List Nat
  | 0, _ => []
  | k + 1, v => v % 256 :: toLE k (v / 256)

/-- Little-endian recomposition of a byte list into a `Nat`. -/
def fromLE : List Nat → Nat
  | [] => 0
  | b :: t => b + 256 * fromLE t

/-- Split a list into chunks of `k` elements (`k = 0` yields nothing). -/
def chunksOf : Nat → List Nat → List (List Nat)
  | _, [] => []
  | 0, _ :: _ => []
  | k + 1, a :: t => (a :: t.take k) :: chunksOf (k + 1) (t.drop k)
termination_by _ l => l.length
decreasing_by
  simp only [List.length_cons, List.length_drop]
  omega

/-- MD5 message padding: a `1` bit, zeros to 56 mod 64 bytes, then the
original bit length in 8 little-endian bytes. -/
def md5Pad (msg : List Nat) : List Nat :=
  msg ++ 128 :: (List.replicate ((56 + 64 - (msg.length + 1) % 64) % 64) 0
    ++ toLE 8 (8 * msg.length))

/-- One MD5 round: state `(a, b, c, d)`, message words `m`, round index `i`. -/
def md5Round (m : List Nat) (st : Nat × Nat × Nat × Nat) (i : Nat) :
    Nat × Nat × Nat × Nat :=
  let a := st.1
  let b := st.2.1
  let c := st.2.2.1
  let d := st.2.2.2
  let f :=
    if i < 16 then (b &&& c) ||| (bnot32 b &&& d)
    else if i < 32 then (d &&& b) ||| (bnot32 d &&& c)
    else if i < 48 then b ^^^ c ^^^ d
    else c ^^^ (b ||| bnot32 d)
  let g :=
    if i < 16 then i
    else if i < 32 then (5 * i + 1) % 16
    else if i < 48 then (3 * i + 5) % 16
    else (7 * i) % 16
  let f2 := mask32 (f + a + md5K.getD i 0 + m.getD g 0)
  (d, mask32 (b + rotl32 f2 (md5S.getD i 0)), b, c)

/-- Process one 64-byte chunk, updating the running MD5 state. -/
def md5Chunk (st : Nat × Nat × Nat × Nat) (chunk : List Nat) :
    Nat × Nat × Nat × Nat :=
  let m := (chunksOf 4 chunk).map fromLE
  let r := (List.range 64).foldl (md5Round m) st
  (mask32 (st.1 + r.1), mask32 (st.2.1 + r.2.1),
   mask32 (st.2.2.1 + r.2.2.1), mask32 (st.2.2.2 + r.2.2.2))

/-- The 16 MD5 digest bytes of a byte message. -/
def md5Bytes (msg : List Nat) : List Nat :=
  let st := (chunksOf 64 (md5Pad msg)).foldl md5Chunk
    (1732584193, 4023233417, 2562383102, 271733878)
  toLE 4 st.1 ++ toLE 4 st.2.1 ++ toLE 4 st.2.2.1 ++ toLE 4 st.2.2.2

/-- One lowercase hexadecimal digit. -/
def hexDigit (n : Nat) : Char :=
  if n < 10 then Char.ofNat (48 + n) else Char.ofNat (87 + n)

/-- Two lowercase hexadecimal digits of a byte. -/
def byteHex (b : Nat) : GStr := [hexDigit (b / 16 % 16), hexDigit (b % 16)]

/-- Lowercase hexadecimal MD5 digest of a byte message (Go renders the
digest with `%x`, lowercase). -/
def md5Hex (msg : List Nat) : GStr := (md5Bytes msg).flatMap byteHex

/-! ### The password cipher (src/unnamed/part_002, `specialMerge` and
`EncryptPasswordWithSeed`) -/

/-- `specialMerge` from the source: a byte-indexed loop from `0` to
`max(len(password), len(seedValue)) - 1` that appends `password[i]` while in
range and then `seedValue[i]` while in range. -/
def specialMerge (password seedValue : List Nat) : List Nat :=
  (List.range (max password.length seedValue.length)).flatMap fun i =>
    (password.drop i).take 1 ++ (seedValue.drop i).take 1

/-- `EncryptPasswordWithSeed` from the source: MD5 of the merged string,
rendered as lowercase hex. -/
def EncryptPasswordWithSeed (password seedValue : List Nat) : GStr :=
  md5Hex (specialMerge password seedValue)

/-- Interleaving as the spec words it: emit `password[0]`, `seed[0]`,
`password[1]`, `seed[1]`, …, continuing past the shorter string's end with
the remaining characters of the longer one.  Stated from the spec, to be
compared against the source's `specialMerge`. -/
def interleaveSpec : List Nat → List Nat → List Nat
  | [], ys => ys
  | x :: xs, [] => x :: xs
  | x :: xs, y :: ys => x :: y :: interleaveSpec xs ys

theorem range_flatMap_take_one (s : List Nat) :
    (List.range s.length).flatMap (fun i => (s.drop i).take 1) = s := by
  induction s with
  | nil => simp
  | cons a t ih =>
    rw [List.length_cons, List.range_succ_eq_map]
    simp only [List.flatMap_cons, List.flatMap_map, Function.comp,
      List.drop_succ_cons, List.drop_zero]
    simpa using ih

theorem specialMerge_eq_interleaveSpec (p s : List Nat) :
    specialMerge p s = interleaveSpec p s := by
  induction p generalizing s with
  | nil =>
    unfold specialMerge interleaveSpec
    have hmax : max (List.length ([] : List Nat)) s.length = s.length := by
      simp
    rw [hmax]
    simp only [List.drop_nil, List.take_nil, List.nil_append]
    exact range_flatMap_take_one s
  | cons a p ih =>
    cases s with
    | nil =>
      unfold specialMerge interleaveSpec
      have hmax : max (a :: p).length (List.length ([] : List Nat)) =
          (a :: p).length := by simp
      rw [hmax]
      simp only [List.drop_nil, List.take_nil, List.append_nil]
      exact range_flatMap_take_one (a :: p)
    | cons b s =>
      have hstep : interleaveSpec (a :: p) (b :: s) =
          a :: b :: interleaveSpec p s := rfl
      rw [hstep]
      unfold specialMerge
      have hmax : max (a :: p).length (b :: s).length =
          max p.length s.length + 1 := by
        simp only [List.length_cons]
        omega
      rw [hmax, List.range_succ_eq_map]
      rw [List.flatMap_cons, List.flatMap_map]
      simp only [List.drop_succ_cons, List.drop_zero, List.take_succ_cons,
        List.take_zero, List.cons_append, List.nil_append]
      rw [← ih s]
      unfold specialMerge
      rfl

/-! ### Go string helpers (strings.HasPrefix / Contains / TrimSpace / SplitN) -/

/-- Go `strings.HasPrefix(s, pre)`. -/
def goStartsWith : GStr → GStr → Bool
  | _, [] => true
  | [], _ :: _ => false
  | c :: s, p :: ps => if c = p then goStartsWith s ps else false

/-- Go `strings.Contains(s, sub)`. -/
def goContains (s sub : GStr) : Bool := s.tails.any fun t => goStartsWith t sub

/-- Go `unicode.IsSpace` (the white space characters of Unicode). -/
def goIsSpace (c : Char) : Bool :=
  let n := c.toNat
  n = 32 || n = 9 || n = 10 || n = 11 || n = 12 || n = 13 || n = 133 ||
    n = 160 || n = 5760 || (8192 ≤ n && n ≤ 8202) || n = 8232 || n = 8233 ||
    n = 8239 || n = 8287 || n = 12288

/-- Go `strings.TrimSpace`. -/
def goTrimSpace (s : GStr) : GStr :=
  ((s.dropWhile goIsSpace).reverse.dropWhile goIsSpace).reverse

/-- Split at the first occurrence of `sep`: the pair of the part before and
the part after.  When `sep` does not occur, the whole string and `[]`.  This
is Go `strings.SplitN(s, sep, 2)` (for a one-character separator that is
known to occur). -/
def splitFirst (s : GStr) (sep : Char) : GStr × GStr :=
  match s with
  | [] => ([], [])
  | c :: t =>
    if c = sep then ([], t)
    else
      let r := splitFirst t sep
      (c :: r.1, r.2)

/-! ### Model names (src/unnamed/part_000, `Model` and its predicates) -/

/-- The `Model` string type. -/
abbrev Model := GStr

/-- `Model.IsSupported` from the source. -/
def isSupported (m : Model) : Bool :=
  decide (m = gs "GS305EP" ∨ m = gs "GS305EPP" ∨ m = gs "GS308EP" ∨
    m = gs "GS308EPP" ∨ m = gs "GS316EP" ∨ m = gs "GS316EPP" ∨
    m = gs "GS30xEPx")

/-- `Model.IsModel316` from the source. -/
def isModel316 (m : Model) : Bool :=
  decide (m = gs "GS316EP" ∨ m = gs "GS316EPP")

/-- `Model.IsModel30x` from the source. -/
def isModel30x (m : Model) : Bool :=
  decide (m = gs "GS305EP" ∨ m = gs "GS305EPP" ∨ m = gs "GS308EP" ∨
    m = gs "GS308EPP" ∨ m = gs "GS30xEPx")

/-- The `session` authentication-type constant. -/
def authTypeSession : GStr := gs "session"

/-- The `gambit` authentication-type constant. -/
def authTypeGambit : GStr := gs "gambit"

/-- `GetAuthenticationType` from src/pkg/netgear/auth.go: gambit for the 316
series, session otherwise. -/
def GetAuthenticationType (m : Model) : GStr :=
  if isModel316 m then authTypeGambit else authTypeSession

/-! ### Model detection (src/unnamed/part_002, both copies of
`ModelDetector.DetectFromHTML`) -/

/-- The first copy of `DetectFromHTML` (part_002 lines 21-37): scan the
specific model names, most specific first, then fall back to the generic
redirect placeholder. -/
def detectFromHTML (htmlContent : GStr) : GStr :=
  match [gs "GS316EPP", gs "GS308EPP", gs "GS305EPP", gs "GS316EP",
      gs "GS308EP", gs "GS305EP"].find? (fun m => goContains htmlContent m) with
  | some m => m
  | none =>
    if goContains htmlContent (gs "Redirect to Login") ||
        goContains htmlContent (gs "redirect") then gs "GS30xEPx"
    else []

/-- The second copy of `DetectFromHTML` (part_002 lines 363-389): GS316EPP,
then GS316EP, then the list GS305EP, GS305EPP, GS308EP, GS308EPP in that
order, then the redirect fallback. -/
def detectFromHTMLSecond (htmlContent : GStr) : GStr :=
  if goContains htmlContent (gs "GS316EPP") then gs "GS316EPP"
  else if goContains htmlContent (gs "GS316EP") then gs "GS316EP"
  else
    match [gs "GS305EP", gs "GS305EPP", gs "GS308EP",
        gs "GS308EPP"].find? (fun m => goContains htmlContent m) with
    | some m => m
    | none =>
      if goContains htmlContent (gs "Redirect to Login") ||
          goContains htmlContent (gs "redirect") then gs "GS30xEPx"
      else []

/-! ### The error taxonomy (src/unnamed/part_000, errors file) -/

/-- The error categories of the `netgear` package. -/
inductive ErrorType where
  | auth
  | network
  | parsing
  | model
  | operation
deriving DecidableEq, Repr

/-- Go errors as this embedding sees them: a `netgear.Error` with its type
and message and either no cause (`ntgr`) or a wrapped cause (`wrap`), or a
raw library error carrying only a message. -/
inductive GoErr where
  | ntgr (t : ErrorType) (message : GStr)
  | wrap (t : ErrorType) (message : GStr) (cause : GoErr)
  | raw (message : GStr)
deriving DecidableEq, Repr

/-- `NewError`: a `netgear.Error` with the given type, message and optional
cause. -/
def NewError (t : ErrorType) (message : GStr) (cause : Option GoErr) : GoErr :=
  match cause with
  | none => .ntgr t message
  | some c => .wrap t message c

/-- `NewAuthError`. -/
def NewAuthError (message : GStr) (cause : Option GoErr) : GoErr :=
  NewError .auth message cause

/-- `NewNetworkError`. -/
def NewNetworkError (message : GStr) (cause : Option GoErr) : GoErr :=
  NewError .network message cause

/-- `NewModelError`. -/
def NewModelError (message : GStr) (cause : Option GoErr) : GoErr :=
  NewError .model message cause

/-- `NewOperationError`. -/
def NewOperationError (message : GStr) (cause : Option GoErr) : GoErr :=
  NewError .operation message cause

/-- Sentinel `ErrNotAuthenticated`. -/
def ErrNotAuthenticated : GoErr := .ntgr .auth (gs "not authenticated")

/-- Sentinel `ErrInvalidCredentials`. -/
def ErrInvalidCredentials : GoErr := .ntgr .auth (gs "invalid credentials")

/-- Sentinel `ErrModelNotDetected`. -/
def ErrModelNotDetected : GoErr :=
  .ntgr .model (gs "could not detect switch model")

/-- Decidable equality of `Except` results. -/
instance {α β : Type} [DecidableEq α] [DecidableEq β] :
    DecidableEq (Except α β) := fun a b =>
  match a, b with
  | .ok x, .ok y =>
    if h : x = y then .isTrue (congrArg Except.ok h)
    else .isFalse (fun hc => h (Except.ok.inj hc))
  | .error x, .error y =>
    if h : x = y then .isTrue (congrArg Except.error h)
    else .isFalse (fun hc => h (Except.error.inj hc))
  | .ok _, .error _ => .isFalse (fun hc => Except.noConfusion hc)
  | .error _, .ok _ => .isFalse (fun hc => Except.noConfusion hc)

/-! ### Token managers (src/pkg/netgear/auth.go) -/

/-- The in-memory token map of `MemoryTokenManager`, as a finite function
from addresses to stored `(token, model)` pairs. -/
def MemTokens := GStr → Option (GStr × Model)

/-- `MemoryTokenManager.GetToken`. -/
def memGetToken (m : MemTokens) (address : GStr) :
    Except GoErr (GStr × Model) :=
  match m address with
  | none => .error (NewAuthError (gs "token not found") none)
  | some d => .ok d

/-- `MemoryTokenManager.StoreToken` (never fails). -/
def memStoreToken (m : MemTokens) (address token : GStr) (model : Model) :
    MemTokens × Option GoErr :=
  (fun a => if a = address then some (token, model) else m a, none)

/-- `MemoryTokenManager.DeleteToken` (never fails, also on absent keys). -/
def memDeleteToken (m : MemTokens) (address : GStr) :
    MemTokens × Option GoErr :=
  (fun a => if a = address then none else m a, none)

/-- FNV-1a 32-bit hash of a byte sequence (`hash/fnv`, `New32a`). -/
def fnv32a (bytes : List Nat) : Nat :=
  bytes.foldl (fun h b => mask32 ((h ^^^ b) * 16777619)) 2166136261

/-- The numeric filename component `getTokenFilename` derives from an
address (the directory part is a fixed path and is not modelled). -/
def tokenFilename (address : GStr) : Nat := fnv32a (strBytes address)

/-- The token-file directory as a finite function from the per-address
filename hash to the file's contents (absent file = `none`). -/
def FileSys := Nat → Option GStr

/-- The body of `FileTokenManager.GetToken` applied to the outcome of
`os.ReadFile`: `none` models the missing-file read error (whose cause is the
operating system's not-found error).  The `len(parts) != 2` re-check of the
source is vacuous here because `SplitN(s, sep, 2)` yields exactly two parts
whenever `sep` occurs in `s`. -/
def fileReadToken (contents : Option GStr) : Except GoErr (GStr × Model) :=
  match contents with
  | none => .error (NewAuthError (gs "failed to read token file")
      (some (.raw (gs "no such file"))))
  | some content =>
    if content = [] then
      .error (NewAuthError
        (gs "token file is empty, please upgrade your token file") none)
    else if !(goContains content (gs ":")) then
      .error (NewAuthError (gs "malformed token file") none)
    else
      let parts := splitFirst content ':'
      let modelStr := goTrimSpace parts.1
      let token := goTrimSpace parts.2
      if !(isSupported modelStr) then
        .error (NewModelError
          (gs "unknown model '" ++ modelStr ++ gs "' in token file") none)
      else .ok (token, modelStr)

/-- `FileTokenManager.GetToken`. -/
def fileGetToken (fs : FileSys) (address : GStr) :
    Except GoErr (GStr × Model) :=
  fileReadToken (fs (tokenFilename address))

/-- `FileTokenManager.StoreToken`: writes `model:token` to the per-address
file (file-system write failures are outside this embedding). -/
def fileStoreToken (fs : FileSys) (address token : GStr) (model : Model) :
    FileSys × Option GoErr :=
  (fun h => if h = tokenFilename address then some (model ++ gs ":" ++ token)
    else fs h, none)

/-- `FileTokenManager.DeleteToken`: removes the file; a missing file is not
an error (`os.IsNotExist` is swallowed). -/
def fileDeleteToken (fs : FileSys) (address : GStr) :
    FileSys × Option GoErr :=
  (fun h => if h = tokenFilename address then none else fs h, none)

/-! ### Lemmas about the Go string helpers -/

theorem goStartsWith_nil (s : GStr) : goStartsWith s [] = true := by
  cases s <;> rfl

theorem goContains_single (c : Char) :
    ∀ (s : GStr), c ∈ s → goContains s [c] = true := by
  intro s
  induction s with
  | nil => intro h; cases h
  | cons a t ih =>
    intro h
    unfold goContains
    rw [List.tails_cons, List.any_cons]
    rcases List.mem_cons.mp h with h1 | h2
    · subst h1
      unfold goStartsWith
      rw [if_pos rfl, goStartsWith_nil]
      rfl
    · have := ih h2
      unfold goContains at this
      rw [this, Bool.or_true]

theorem splitFirst_append (sep : Char) :
    ∀ (l r : GStr), (∀ x ∈ l, x ≠ sep) →
      splitFirst (l ++ sep :: r) sep = (l, r) := by
  intro l
  induction l with
  | nil =>
    intro r _
    unfold splitFirst
    simp
  | cons a t ih =>
    intro r h
    have ha : a ≠ sep := h a (List.mem_cons_self a t)
    have ht : ∀ x ∈ t, x ≠ sep := fun x hx => h x (List.mem_cons_of_mem a hx)
    rw [List.cons_append]
    unfold splitFirst
    rw [if_neg ha, ih r ht]

theorem supported_cases (m : Model) (h : isSupported m = true) :
    m = gs "GS305EP" ∨ m = gs "GS305EPP" ∨ m = gs "GS308EP" ∨
    m = gs "GS308EPP" ∨ m = gs "GS316EP" ∨ m = gs "GS316EPP" ∨
    m = gs "GS30xEPx" := by
  unfold isSupported at h
  exact of_decide_eq_true h

/-- A well-formed stored file round-trips: for a supported model and a token
that `TrimSpace` leaves unchanged, parsing `model:token` returns exactly the
pair. -/
theorem fileReadToken_roundtrip (mdl tok : GStr) (hm : isSupported mdl = true)
    (ht : goTrimSpace tok = tok) :
    fileReadToken (some (mdl ++ gs ":" ++ tok)) = .ok (tok, mdl) := by
  have hgs : gs ":" = [':'] := by decide
  have hns : ∀ x ∈ mdl, x ≠ ':' := by
    rcases supported_cases mdl hm with h | h | h | h | h | h | h <;>
      subst h <;> decide
  have htm : goTrimSpace mdl = mdl := by
    rcases supported_cases mdl hm with h | h | h | h | h | h | h <;>
      subst h <;> decide
  have hform : mdl ++ gs ":" ++ tok = mdl ++ ':' :: tok := by
    rw [hgs, List.append_assoc]
    rfl
  rw [hform]
  have hne : mdl ++ ':' :: tok ≠ [] := by simp
  have hc : goContains (mdl ++ ':' :: tok) (gs ":") = true := by
    rw [hgs]
    exact goContains_single ':' _ (by simp)
  simp only [fileReadToken]
  rw [if_neg hne, hc]
  simp only [Bool.not_true, Bool.false_eq_true, if_false]
  rw [splitFirst_append ':' mdl tok hns]
  simp only [htm, ht, hm, Bool.not_true, Bool.false_eq_true, if_false]

/-! ### Claim C1 -/

/-- C1: `EncryptPasswordWithSeed` is exactly the lowercase-hex MD5 digest of
the spec's interleaving of password and seed, and the interleave meets the
spec's two literal checks. -/
theorem C1_encrypt_password_with_seed :
    (∀ password seedValue : List Nat,
      EncryptPasswordWithSeed password seedValue =
        md5Hex (interleaveSpec password seedValue)) ∧
    interleaveSpec (gbytes "ab") (gbytes "1234") = gbytes "a1b234" ∧
    interleaveSpec (gbytes "abcd") (gbytes "1") = gbytes "a1bcd" := by
  refine ⟨?_, by decide, by decide⟩
  intro p s
  unfold EncryptPasswordWithSeed
  rw [specialMerge_eq_interleaveSpec]

/-! ### Claim C2 -/

/-- C2: the claim says DetectFromHTML returns the PP variant for every
fragment containing one, never its shorter prefix.  The first copy does so
on the failing input "GS305EPP", and also honours the redirect fallback and
the empty default; the second copy checks "GS305EP" before "GS305EPP" and
returns the shorter prefix "GS305EP" on the same fragment (and likewise
"GS308EP" for "GS308EPP"), contradicting the claim. -/
theorem C2_detect_pp_variant_eval :
    detectFromHTML (gs "GS305EPP") = gs "GS305EPP" ∧
    detectFromHTML (gs "GS308EPP") = gs "GS308EPP" ∧
    detectFromHTML (gs "Redirect to Login page") = gs "GS30xEPx" ∧
    detectFromHTML (gs "plain text") = [] ∧
    detectFromHTMLSecond (gs "GS305EPP") = gs "GS305EP" ∧
    detectFromHTMLSecond (gs "GS308EPP") = gs "GS308EP" ∧
    detectFromHTMLSecond (gs "GS316EPP") = gs "GS316EPP" := by
  decide

/-! ### Claim C3 -/

/-- C3 (amended): store-then-get returns exactly the stored pair,
delete-then-get fails with the respective manager's token-not-found error,
and deleting twice reports no error — for the memory manager for every
token, and for the file manager for every supported model and every token
that `TrimSpace` leaves unchanged (the file manager trims whitespace when
reading the file back). -/
theorem C3_token_store_roundtrip :
    (∀ (m : MemTokens) (addr tok : GStr) (model : Model),
      memGetToken (memStoreToken m addr tok model).1 addr =
        .ok (tok, model)) ∧
    (∀ (m : MemTokens) (addr : GStr),
      memGetToken (memDeleteToken m addr).1 addr =
        .error (NewAuthError (gs "token not found") none)) ∧
    (∀ (m : MemTokens) (addr : GStr),
      (memDeleteToken m addr).2 = none ∧
      (memDeleteToken (memDeleteToken m addr).1 addr).2 = none) ∧
    (∀ (fs : FileSys) (addr tok : GStr) (model : Model),
      isSupported model = true → goTrimSpace tok = tok →
      fileGetToken (fileStoreToken fs addr tok model).1 addr =
        .ok (tok, model)) ∧
    (∀ (fs : FileSys) (addr : GStr),
      fileGetToken (fileDeleteToken fs addr).1 addr =
        .error (NewAuthError (gs "failed to read token file")
          (some (.raw (gs "no such file"))))) ∧
    (∀ (fs : FileSys) (addr : GStr),
      (fileDeleteToken fs addr).2 = none ∧
      (fileDeleteToken (fileDeleteToken fs addr).1 addr).2 = none) := by
  refine ⟨?_, ?_, ?_, ?_, ?_, ?_⟩
  · intro m addr tok model
    simp [memGetToken, memStoreToken]
  · intro m addr
    simp [memGetToken, memDeleteToken, NewAuthError, NewError]
  · intro m addr
    exact ⟨rfl, rfl⟩
  · intro fs addr tok model hm ht
    have : (fileStoreToken fs addr tok model).1 (tokenFilename addr) =
        some (model ++ gs ":" ++ tok) := by
      simp [fileStoreToken]
    rw [fileGetToken, this]
    exact fileReadToken_roundtrip model tok hm ht
  · intro fs addr
    have : (fileDeleteToken fs addr).1 (tokenFilename addr) = none := by
      simp [fileDeleteToken]
    rw [fileGetToken, this]
    rfl
  · intro fs addr
    exact ⟨rfl, rfl⟩

/-- Witness for C3 at concrete inputs, discharging the file-side
hypotheses. -/
theorem C3_token_store_roundtrip_witness :
    memGetToken (memStoreToken (fun _ => none) (gs "192.168.0.1") (gs "t0")
      (gs "GS305EP")).1 (gs "192.168.0.1") = .ok (gs "t0", gs "GS305EP") ∧
    fileGetToken (fileStoreToken (fun _ => none) (gs "192.168.0.1") (gs "t0")
      (gs "GS305EP")).1 (gs "192.168.0.1") = .ok (gs "t0", gs "GS305EP") ∧
    fileGetToken (fileDeleteToken (fun _ => none) (gs "192.168.0.1")).1
      (gs "192.168.0.1") =
      .error (NewAuthError (gs "failed to read token file")
        (some (.raw (gs "no such file")))) :=
  ⟨C3_token_store_roundtrip.1 (fun _ => none) (gs "192.168.0.1") (gs "t0")
      (gs "GS305EP"),
   C3_token_store_roundtrip.2.2.2.1 (fun _ => none) (gs "192.168.0.1")
      (gs "t0") (gs "GS305EP") (by decide) (by decide),
   C3_token_store_roundtrip.2.2.2.2.1 (fun _ => none) (gs "192.168.0.1")⟩

/-- Counterexample to C3 as stated: for the file manager, a token with
leading whitespace does not round-trip — the file read trims it. -/
theorem C3_roundtrip_counterexample :
    fileGetToken (fileStoreToken (fun _ => none) (gs "10.0.0.1") (gs " x")
      (gs "GS305EP")).1 (gs "10.0.0.1") = .ok (gs "x", gs "GS305EP") ∧
    fileGetToken (fileStoreToken (fun _ => none) (gs "10.0.0.1") (gs " x")
      (gs "GS305EP")).1 (gs "10.0.0.1") ≠ .ok (gs " x", gs "GS305EP") := by
  constructor
  · decide
  · decide

/-! ### Claim C4 -/

/-- C4 (amended): `GS305EP:abc123` parses to the pair; an empty file yields
the stale-format error, distinct from the missing-file error and from the
malformed-file error; an unsupported model segment yields a Model-kind
error; and extra trailing colon-delimited segments cause no error but are
retained as part of the returned token. -/
theorem C4_file_token_distinctions :
    fileReadToken (some (gs "GS305EP:abc123")) =
      .ok (gs "abc123", gs "GS305EP") ∧
    fileReadToken (some []) =
      .error (NewAuthError
        (gs "token file is empty, please upgrade your token file") none) ∧
    fileReadToken none =
      .error (NewAuthError (gs "failed to read token file")
        (some (.raw (gs "no such file")))) ∧
    fileReadToken (some (gs "tokenonly")) =
      .error (NewAuthError (gs "malformed token file") none) ∧
    (NewAuthError
        (gs "token file is empty, please upgrade your token file") none ≠
      NewAuthError (gs "failed to read token file")
        (some (.raw (gs "no such file")))) ∧
    (NewAuthError
        (gs "token file is empty, please upgrade your token file") none ≠
      NewAuthError (gs "malformed token file") none) ∧
    (NewAuthError (gs "failed to read token file")
        (some (.raw (gs "no such file"))) ≠
      NewAuthError (gs "malformed token file") none) ∧
    fileReadToken (some (gs "BadModel:tok")) =
      .error (NewModelError
        (gs "unknown model 'BadModel' in token file") none) ∧
    fileReadToken (some (gs "GS305EP:abc123:extra:data")) =
      .ok (gs "abc123:extra:data", gs "GS305EP") := by
  decide

/-- Counterexample to C4 as stated: trailing colon-delimited segments are
not dropped from the token — `GS305EP:abc123:extra` yields the token
`abc123:extra`, not `abc123`. -/
theorem C4_trailing_segments_counterexample :
    fileReadToken (some (gs "GS305EP:abc123:extra")) =
      .ok (gs "abc123:extra", gs "GS305EP") ∧
    fileReadToken (some (gs "GS305EP:abc123:extra")) ≠
      .ok (gs "abc123", gs "GS305EP") := by
  constructor
  · decide
  · decide

/-! ### url.Values (net/url form data) -/

/-- Go `url.Values`: a map from keys to value slices, as an association
list with distinct keys maintained by `valuesSet`. -/
abbrev Values := List (GStr × List GStr)

/-- `url.Values.Set`: replace (or add) the single value of a key. -/
def valuesSet (d : Values) (k v : GStr) : Values :=
  match d with
  | [] => [(k, [v])]
  | (k2, vs) :: t => if k2 = k then (k, [v]) :: t else (k2, vs) :: valuesSet t k v

/-- Map lookup on `Values`. -/
def valuesLookup (d : Values) (k : GStr) : Option (List GStr) :=
  match d with
  | [] => none
  | (k2, vs) :: t => if k2 = k then some vs else valuesLookup t k

/-- One upper-case hexadecimal digit (percent-encoding uses upper case). -/
def hexDigitUpper (n : Nat) : Char :=
  if n < 10 then Char.ofNat (48 + n) else Char.ofNat (55 + n)

/-- Whether a byte needs no escaping in Go `url.QueryEscape`. -/
def isUnreservedByte (b : Nat) : Bool :=
  (65 ≤ b && b ≤ 90) || (97 ≤ b && b ≤ 122) || (48 ≤ b && b ≤ 57) ||
    b = 45 || b = 95 || b = 46 || b = 126

/-- Escape one byte as Go `url.QueryEscape` does (space becomes `+`). -/
def escapeByte (b : Nat) : GStr :=
  if isUnreservedByte b then [Char.ofNat b]
  else if b = 32 then ['+']
  else ['%', hexDigitUpper (b / 16 % 16), hexDigitUpper (b % 16)]

/-- Go `url.QueryEscape`. -/
def queryEscape (s : GStr) : GStr := (strBytes s).flatMap escapeByte

/-- Byte-wise lexicographic comparison of strings (Go `sort.Strings`
ordering). -/
def lexLtBytes : List Nat → List Nat → Bool
  | [], [] => false
  | [], _ :: _ => true
  | _ :: _, [] => false
  | a :: as, b :: bs => if a = b then lexLtBytes as bs else decide (a < b)

/-- Key comparison for the sorted encoding. -/
def keyLt (a b : GStr) : Bool := lexLtBytes (strBytes a) (strBytes b)

/-- Insertion into a key-sorted association list. -/
def insertSorted (x : GStr × List GStr) :
    List (GStr × List GStr) → List (GStr × List GStr)
  | [] => [x]
  | y :: t => if keyLt y.1 x.1 then y :: insertSorted x t else x :: y :: t

/-- Sort a `Values` by key (Go `Encode` sorts the keys). -/
def sortByKey (d : Values) : Values := d.foldr insertSorted []

/-- Join with `&` separators. -/
def joinAmp : List GStr → GStr
  | [] => []
  | [x] => x
  | x :: y :: t => x ++ '&' :: joinAmp (y :: t)

/-- Go `url.Values.Encode`: sorted keys, each value escaped, joined by
`&`. -/
def valuesEncode (d : Values) : GStr :=
  joinAmp ((sortByKey d).flatMap fun kv =>
    kv.2.map fun v => queryEscape kv.1 ++ gs "=" ++ queryEscape v)

/-! ### The HTTP transport as an oracle -/

/-- An HTTP request as `internal.HTTPClient` builds it: for GET the query
string is already part of `path` and `formData` is `none`; for POST the
form data is the body. -/
structure HttpReq where
  method : GStr
  path : GStr
  headers : List (GStr × GStr)
  formData : Option Values
deriving DecidableEq

/-- An HTTP response: headers, the outcome of reading the body (reading can
fail), and the status code. -/
structure HttpResponse where
  headers : List (GStr × GStr)
  bodyResult : Except GoErr GStr
  statusCode : Nat
deriving DecidableEq

/-- `http.Header.Get`: first value of the named header, empty if absent. -/
def headerGet : List (GStr × GStr) → GStr → GStr
  | [], _ => []
  | h :: t, name => if h.1 = name then h.2 else headerGet t name

/-- The device, as an oracle from requests to transport outcomes. -/
def Env : Type := HttpReq → Except GoErr HttpResponse

/-- `HTTPClient.Get`. -/
def getReq (path : GStr) (headers : List (GStr × GStr)) : HttpReq :=
  { method := gs "GET", path := path, headers := headers, formData := none }

/-- `HTTPClient.Post` (adds the form content-type header and sends the
encoded data as the body). -/
def postReq (path : GStr) (data : Values) (headers : List (GStr × GStr)) :
    HttpReq :=
  { method := gs "POST", path := path,
    headers := (gs "Content-Type", gs "application/x-www-form-urlencoded")
      :: headers,
    formData := some data }

/-- `body, _ := ReadBody(resp)`: the body on success, `""` when the read
failed and the error is discarded. -/
def goValueOrEmpty (r : Except GoErr GStr) : GStr :=
  match r with
  | .ok b => b
  | .error _ => []

/-! ### Session-token extraction (src/pkg/netgear/client.go,
`extractSessionToken`) -/

/-- Go `strings.Index` for a single character. -/
def goIndexOf : GStr → Char → Option Nat
  | [], _ => none
  | c :: t, x => if c = x then some 0 else (goIndexOf t x).map (· + 1)

/-- The loop of `extractSessionToken` over the known cookie-name
prefixes. -/
def extractTokenWithPres : List GStr → GStr → GStr
  | [], _ => []
  | p :: rest, cookie =>
    if goStartsWith cookie p then
      let sidVal := cookie.drop p.length
      match goIndexOf sidVal ';' with
      | some idx => sidVal.take idx
      | none => sidVal
    else extractTokenWithPres rest cookie

/-- `extractSessionToken` applied to the `Set-Cookie` header value: the
known prefix list is just `SID=`. -/
def extractSessionToken (cookie : GStr) : GStr :=
  extractTokenWithPres [gs "SID="] cookie

/-! ### A small backtracking matcher for the fixed `regexp` patterns of
src/unnamed/part_002 (`ExtractErrorMessage`, `ExtractGambitToken`).

Each of those patterns is a sequence of literals and character-class
quantifiers around a single captured greedy `+`-class; the matcher below
enumerates remainders in backtracking preference order (greedy first),
which reproduces the engine's leftmost match with greedy quantifiers. -/

/-- One regular-expression item: a literal, or a character class occurring
exactly once, zero-or-more times, or one-or-more times. -/
inductive RItem where
  | lit (c : Char)
  | one (f : Char → Bool)
  | star (f : Char → Bool)
  | plus (f : Char → Bool)

/-- The possible remainders after matching one item, most-greedy first. -/
def itemOptions : RItem → GStr → List GStr
  | .lit _, [] => []
  | .lit c, x :: xs => if x = c then [xs] else []
  | .one _, [] => []
  | .one f, x :: xs => if f x then [xs] else []
  | .star f, s =>
    let n := (s.takeWhile f).length
    (List.range (n + 1)).map fun k => s.drop (n - k)
  | .plus f, s =>
    let n := (s.takeWhile f).length
    (List.range n).map fun k => s.drop (n - k)

/-- The possible remainders after matching a sequence of items, in
backtracking preference order. -/
def seqOptions : List RItem → GStr → List GStr
  | [], s => [s]
  | it :: its, s => (itemOptions it s).flatMap (seqOptions its)

/-- A pattern: items before the capture, the captured greedy `+`-class, and
items after it. -/
structure Pat where
  pre : List RItem
  capCls : Char → Bool
  post : List RItem

/-- The capture of the first match of `p` anchored at the start of `s`. -/
def patCapAt (p : Pat) (s : GStr) : Option GStr :=
  (seqOptions p.pre s).findSome? fun r =>
    let n := (r.takeWhile p.capCls).length
    (List.range n).findSome? fun k =>
      let j := n - k
      if seqOptions p.post (r.drop j) ≠ [] then some (r.take j) else none

/-- `FindStringSubmatch`: the capture of the leftmost match. -/
def findSubmatch (p : Pat) (s : GStr) : Option GStr :=
  s.tails.findSome? (patCapAt p)

/-- Sequence of literal items for a literal fragment. -/
def litSeq (s : GStr) : List RItem := s.map RItem.lit

/-- The class `["\s]` (RE2 `\s` is tab, newline, form feed, carriage
return, space). -/
def clsQuoteSpace (c : Char) : Bool :=
  let n := c.toNat
  n = 34 || n = 9 || n = 10 || n = 12 || n = 13 || n = 32

/-- The class `[:=]`. -/
def clsColonEq (c : Char) : Bool := c = ':' || c = '='

/-- The class `[^"]`. -/
def clsNotQuote (c : Char) : Bool := decide (c ≠ '"')

/-- The class `[^>]`. -/
def clsNotGt (c : Char) : Bool := decide (c ≠ '>')

/-- The class `[^<]`. -/
def clsNotLt (c : Char) : Bool := decide (c ≠ '<')

/-- The class `\s`. -/
def clsSpace (c : Char) : Bool :=
  let n := c.toNat
  n = 9 || n = 10 || n = 12 || n = 13 || n = 32

/-- The class `[a-fA-F0-9]`. -/
def clsHex (c : Char) : Bool :=
  let n := c.toNat
  (48 ≤ n && n ≤ 57) || (97 ≤ n && n ≤ 102) || (65 ≤ n && n ≤ 70)

/-- The class `[0-9]`. -/
def clsDigit (c : Char) : Bool :=
  let n := c.toNat
  48 ≤ n && n ≤ 57

/-- Pattern `error["\s]*[:=]["\s]*"([^"]+)"`. -/
def patError1 : Pat :=
  { pre := litSeq (gs "error") ++ [RItem.star clsQuoteSpace,
      RItem.one clsColonEq, RItem.star clsQuoteSpace, RItem.lit '"'],
    capCls := clsNotQuote, post := [RItem.lit '"'] }

/-- Pattern `<div[^>]*error[^>]*>([^<]+)</div>`. -/
def patError2 : Pat :=
  { pre := litSeq (gs "<div") ++ [RItem.star clsNotGt] ++
      litSeq (gs "error") ++ [RItem.star clsNotGt, RItem.lit '>'],
    capCls := clsNotLt, post := litSeq (gs "</div>") }

/-- Pattern `alert\s*\(\s*"([^"]+)"\s*\)`. -/
def patError3 : Pat :=
  { pre := litSeq (gs "alert") ++ [RItem.star clsSpace, RItem.lit '(',
      RItem.star clsSpace, RItem.lit '"'],
    capCls := clsNotQuote, post := [RItem.lit '"', RItem.star clsSpace,
      RItem.lit ')'] }

/-- `ExtractErrorMessage`: first pattern that matches wins; its capture is
returned trimmed. -/
def extractErrorMessage (content : GStr) : GStr :=
  match [patError1, patError2, patError3].findSome?
      (fun p => (findSubmatch p content).map goTrimSpace) with
  | some m => m
  | none => []

/-- Pattern `Gambit["\s]*[:=]["\s]*([a-fA-F0-9]+)`. -/
def patGambit1 : Pat :=
  { pre := litSeq (gs "Gambit") ++ [RItem.star clsQuoteSpace,
      RItem.one clsColonEq, RItem.star clsQuoteSpace],
    capCls := clsHex, post := [] }

/-- Pattern `gambit["\s]*[:=]["\s]*([a-fA-F0-9]+)`. -/
def patGambit2 : Pat :=
  { pre := litSeq (gs "gambit") ++ [RItem.star clsQuoteSpace,
      RItem.one clsColonEq, RItem.star clsQuoteSpace],
    capCls := clsHex, post := [] }

/-- Pattern `rand["\s]*[:=]["\s]*([0-9]+)`. -/
def patGambit3 : Pat :=
  { pre := litSeq (gs "rand") ++ [RItem.star clsQuoteSpace,
      RItem.one clsColonEq, RItem.star clsQuoteSpace],
    capCls := clsDigit, post := [] }

/-- `ExtractGambitToken`: first pattern that matches wins. -/
def extractGambitToken (content : GStr) : GStr :=
  match [patGambit1, patGambit2, patGambit3].findSome?
      (fun p => findSubmatch p content) with
  | some m => m
  | none => []

/-! ### Seed extraction (`ExtractSeedValue`) -/

/-- Split a string at every occurrence of a character. -/
def splitOnChar : GStr → Char → List GStr
  | [], _ => [[]]
  | c :: t, x =>
    if c = x then [] :: splitOnChar t x
    else
      match splitOnChar t x with
      | [] => [[c]]
      | h :: r => (c :: h) :: r

/-- The suffix after the first occurrence of `sub` plus `sub` itself
removed; empty when `sub` does not occur. -/
def afterSub : GStr → GStr → GStr
  | [], _ => []
  | c :: t, sub =>
    if goStartsWith (c :: t) sub then (c :: t).drop sub.length
    else afterSub t sub

/-- `ExtractSeedValue` from the source; its goquery selector lookup is
modelled from the spec: the login page carries an element
`<input id="rand" value="SEED">` and the seed is that element's `value`
attribute (empty when no such element or attribute exists). -/
def extractSeedValue (content : GStr) : GStr :=
  let tags := (splitOnChar content '<').map
    (fun seg => seg.takeWhile (fun c => decide (c ≠ '>')))
  match tags.find? (fun t => goContains t (gs "id=\"rand\"")) with
  | none => []
  | some t =>
    (afterSub t (gs "value=\"")).takeWhile (fun c => decide (c ≠ '"'))

/-! ### The session client (src/pkg/netgear/client.go and the
password-manager variant of src/unnamed/part_001) -/

/-- The in-memory client state: address, detected model, held token. -/
structure ClientState where
  address : GStr
  model : Model
  token : GStr
deriving DecidableEq

/-- The token-manager capability `Login` uses, over an abstract store state
(both `MemoryTokenManager` and `FileTokenManager` fit). -/
structure TokenMgrOps (sigma : Type) where
  store : sigma → GStr → GStr → Model → sigma × Option GoErr

/-- `Client.encryptPassword`: the cipher over the strings' bytes. -/
def encryptPassword (password seedValue : GStr) : GStr :=
  EncryptPasswordWithSeed (strBytes password) (strBytes seedValue)

/-- `Client.getSeedValue`: GET the login page, read the body, extract the
seed; an empty seed is the `seed value not found` auth error. -/
def getSeedValue (env : Env) (loginPath : GStr) :
    Except GoErr GStr × List HttpReq :=
  let req := getReq loginPath []
  match env req with
  | .error e => (.error e, [req])
  | .ok resp =>
    match resp.bodyResult with
    | .error e => (.error e, [req])
    | .ok body =>
      let sv := extractSeedValue body
      if sv = [] then
        (.error (NewAuthError (gs "seed value not found in login page") none),
          [req])
      else (.ok sv, [req])

/-- Step 5 of `loginWithSession`: extract the token from the `Set-Cookie`
header; when empty, read the body (errors discarded), surface a
device-reported error message if one is found, otherwise fail with
`ErrInvalidCredentials`. -/
def sessionTokenOutcome (resp : HttpResponse) : Except GoErr GStr :=
  let token := extractSessionToken (headerGet resp.headers (gs "Set-Cookie"))
  if token = [] then
    let body := goValueOrEmpty resp.bodyResult
    let msg := extractErrorMessage body
    if msg ≠ [] then
      .error (NewAuthError (gs "login failed: " ++ msg) none)
    else .error ErrInvalidCredentials
  else .ok token

/-- `Client.loginWithSession` (30x series): seed from `/login.cgi`, encrypt,
POST the `password` field to `/login.cgi`, extract the session token from
the response headers. -/
def loginWithSession (env : Env) (password : GStr) :
    Except GoErr GStr × List HttpReq :=
  match getSeedValue env (gs "/login.cgi") with
  | (.error e, tr) =>
    (.error (NewAuthError (gs "failed to get seed value") (some e)), tr)
  | (.ok seedValue, tr) =>
    let encryptedPassword := encryptPassword password seedValue
    let data := valuesSet [] (gs "password") encryptedPassword
    let req := postReq (gs "/login.cgi") data []
    match env req with
    | .error e =>
      (.error (NewNetworkError (gs "login request failed") (some e)),
        tr ++ [req])
    | .ok resp => (sessionTokenOutcome resp, tr ++ [req])

/-- `Client.loginWithGambit` (316 series): seed from `/wmi/login`, encrypt,
POST the `LoginPassword` field to `/redirect.html`, extract the Gambit
token from the response body. -/
def loginWithGambit (env : Env) (password : GStr) :
    Except GoErr GStr × List HttpReq :=
  match getSeedValue env (gs "/wmi/login") with
  | (.error e, tr) =>
    (.error (NewAuthError (gs "failed to get seed value") (some e)), tr)
  | (.ok seedValue, tr) =>
    let encryptedPassword := encryptPassword password seedValue
    let data := valuesSet [] (gs "LoginPassword") encryptedPassword
    let req := postReq (gs "/redirect.html") data []
    match env req with
    | .error e =>
      (.error (NewNetworkError (gs "gambit login request failed") (some e)),
        tr ++ [req])
    | .ok resp =>
      match resp.bodyResult with
      | .error e =>
        (.error (NewNetworkError (gs "failed to read gambit login response")
          (some e)), tr ++ [req])
      | .ok body =>
        let token := extractGambitToken body
        if token = [] then
          if extractErrorMessage body ≠ [] then
            (.error (NewAuthError (gs "gambit login failed: " ++
              extractErrorMessage body) none), tr ++ [req])
          else (.error ErrInvalidCredentials, tr ++ [req])
        else (.ok token, tr ++ [req])

/-- The body of `Client.Login` after the password checks: select the
protocol by authentication type, run it, replace the in-memory token only
on success, then best-effort persist (store errors are logged, ignored). -/
def loginCore {sigma : Type} (env : Env) (tm : TokenMgrOps sigma)
    (tmSt : sigma) (c : ClientState) (password : GStr) :
    ClientState × sigma × Option GoErr × List HttpReq :=
  let authType := GetAuthenticationType c.model
  let r :=
    if authType = authTypeSession then loginWithSession env password
    else if authType = authTypeGambit then loginWithGambit env password
    else (.error (NewAuthError
      (gs "unsupported authentication type for model " ++ c.model) none), [])
  match r with
  | (.error e, tr) => (c, tmSt, some e, tr)
  | (.ok token, tr) =>
    ({ c with token := token }, (tm.store tmSt c.address token c.model).1,
      none, tr)

/-- `Client.Login` of src/pkg/netgear/client.go: an empty password is
rejected outright. -/
def Login {sigma : Type} (env : Env) (tm : TokenMgrOps sigma) (tmSt : sigma)
    (c : ClientState) (password : GStr) :
    ClientState × sigma × Option GoErr × List HttpReq :=
  if password = [] then
    (c, tmSt, some (NewAuthError (gs "password cannot be empty") none), [])
  else loginCore env tm tmSt c password

/-- A switch configuration resolved by the password collaborator. -/
structure SwitchConfig where
  host : GStr
  password : GStr
  modelHint : GStr
deriving DecidableEq

/-- The password-resolution collaborator (`GetSwitchConfig`) as an oracle:
`none` models `found = false`. -/
def PwLookup : Type := GStr → Option SwitchConfig

/-- `Client.Login` of the password-manager variant (src/unnamed/part_001
lines 494-542): an empty password is first resolved through the password
manager when one is configured. -/
def LoginPM {sigma : Type} (env : Env) (tm : TokenMgrOps sigma)
    (tmSt : sigma) (pm : Option PwLookup) (c : ClientState)
    (password : GStr) :
    ClientState × sigma × Option GoErr × List HttpReq :=
  if password = [] then
    match pm with
    | some lookup =>
      match lookup c.address with
      | some config => loginCore env tm tmSt c config.password
      | none =>
        (c, tmSt, some (NewAuthError
          (gs "no password provided and no environment variable found")
          none), [])
    | none =>
      (c, tmSt, some (NewAuthError (gs "password cannot be empty") none), [])
  else loginCore env tm tmSt c password

/-! ### Authenticated request dispatch (`makeAuthenticatedRequest`) -/

/-- The headers the authentication switch adds: the session family carries
the `Cookie: SID=<token>` header. -/
def authHeaders (c : ClientState) : List (GStr × GStr) :=
  if GetAuthenticationType c.model = authTypeSession then
    [(gs "Cookie", gs "SID=" ++ c.token)]
  else []

/-- The form data after the authentication switch: the gambit family adds
the `Gambit=<token>` parameter. -/
def authData (c : ClientState) (data : Values) : Values :=
  if GetAuthenticationType c.model = authTypeGambit then
    valuesSet data (gs "Gambit") c.token
  else data

/-- `Client.makeAuthenticatedRequest`: refuse without a token; otherwise
attach the model-correct credential and dispatch — GET serializes non-empty
form data into the query string, POST sends it as the body. -/
def makeAuthenticatedRequest (env : Env) (c : ClientState)
    (method path : GStr) (data : Values) :
    Except GoErr GStr × List HttpReq :=
  if c.token = [] then (.error ErrNotAuthenticated, [])
  else
    let headers := authHeaders c
    let data2 := authData c data
    if method = gs "GET" then
      let path2 :=
        if 0 < data2.length then path ++ gs "?" ++ valuesEncode data2
        else path
      let req := getReq path2 headers
      match env req with
      | .error e =>
        (.error (NewNetworkError (gs "GET request failed") (some e)), [req])
      | .ok resp => (resp.bodyResult, [req])
    else
      let req := postReq path data2 headers
      match env req with
      | .error e =>
        (.error (NewNetworkError (gs "POST request failed") (some e)), [req])
      | .ok resp => (resp.bodyResult, [req])

/-! ### Model detection with escalation (`Client.detectModel`,
src/pkg/netgear/client.go lines 92-131) -/

/-- `Client.detectModel`: probe `/`, escalate a generic `GS30xEPx` result by
probing `/login.cgi`, then reject an empty or unsupported result. -/
def detectModel (env : Env) : Except GoErr Model × List HttpReq :=
  let req := getReq (gs "/") []
  match env req with
  | .error e =>
    (.error (NewNetworkError (gs "failed to connect to switch") (some e)),
      [req])
  | .ok resp =>
    match resp.bodyResult with
    | .error e =>
      (.error (NewNetworkError (gs "failed to read response") (some e)),
        [req])
    | .ok body =>
      let modelString := detectFromHTML body
      let escalated :=
        if modelString = gs "GS30xEPx" then
          let req2 := getReq (gs "/login.cgi") []
          match env req2 with
          | .error _ => (modelString, [req2])
          | .ok resp2 =>
            match resp2.bodyResult with
            | .error _ => (modelString, [req2])
            | .ok body2 =>
              let specific := detectFromHTML body2
              if specific ≠ [] ∧ specific ≠ gs "GS30xEPx" then
                (specific, [req2])
              else (modelString, [req2])
        else (modelString, [])
      if escalated.1 = [] then (.error ErrModelNotDetected, req :: escalated.2)
      else if !(isSupported escalated.1) then
        (.error (NewModelError (gs "detected model " ++ escalated.1 ++
          gs " is not supported") none), req :: escalated.2)
      else (.ok escalated.1, req :: escalated.2)

/-! ### Sparse port updates (src/unnamed/part_000 `PortManager.UpdatePort`
and src/pkg/netgear/poe.go `POEManager.UpdatePort`) -/

/-- `strconv.Itoa`. -/
def itoa (n : Int) : GStr :=
  if n < 0 then '-' :: Nat.toDigits 10 n.natAbs else Nat.toDigits 10 n.toNat

/-- `PortUpdate`: every field but the port number is optional. -/
structure PortUpdate where
  portID : Int
  name : Option GStr := none
  speed : Option GStr := none
  ingressLimit : Option GStr := none
  egressLimit : Option GStr := none
  flowControl : Option Bool := none
deriving DecidableEq

/-- `POEPortUpdate`: every field but the port number is optional (the
`PowerLimitW` float is carried as its `%.2f`-formatted string, which is all
the update transmits). -/
structure POEPortUpdate where
  portID : Int
  enabled : Option Bool := none
  mode : Option GStr := none
  priority : Option GStr := none
  powerLimitType : Option GStr := none
  powerLimitW : Option GStr := none
  detectionType : Option GStr := none
deriving DecidableEq

/-- The form data `PortManager.UpdatePort` builds for one update record:
the port number always, then only the present optional fields. -/
def buildPortData (u : PortUpdate) : Values :=
  let d0 := valuesSet [] (gs "port") (itoa u.portID)
  let d1 := match u.name with
    | some v => valuesSet d0 (gs "name") v
    | none => d0
  let d2 := match u.speed with
    | some v => valuesSet d1 (gs "speed") v
    | none => d1
  let d3 := match u.ingressLimit with
    | some v => valuesSet d2 (gs "ingress_limit") v
    | none => d2
  let d4 := match u.egressLimit with
    | some v => valuesSet d3 (gs "egress_limit") v
    | none => d3
  match u.flowControl with
  | some b => valuesSet d4 (gs "flow_control") (if b then gs "on" else gs "off")
  | none => d4

/-- The form data `POEManager.UpdatePort` builds for one update record. -/
def buildPoeData (u : POEPortUpdate) : Values :=
  let d0 := valuesSet [] (gs "port") (itoa u.portID)
  let d1 := match u.enabled with
    | some b => valuesSet d0 (gs "enabled") (if b then gs "1" else gs "0")
    | none => d0
  let d2 := match u.mode with
    | some v => valuesSet d1 (gs "mode") v
    | none => d1
  let d3 := match u.priority with
    | some v => valuesSet d2 (gs "priority") v
    | none => d2
  let d4 := match u.powerLimitType with
    | some v => valuesSet d3 (gs "power_limit_type") v
    | none => d3
  let d5 := match u.powerLimitW with
    | some v => valuesSet d4 (gs "power_limit_w") v
    | none => d4
  match u.detectionType with
  | some v => valuesSet d5 (gs "detection_type") v
  | none => d5

/-- The per-update loop of `PortManager.UpdatePort`: POST each record's
data, stop at the first transport error or device-reported error
message. -/
def portUpdateLoop (env : Env) (c : ClientState) (endpoint : GStr) :
    List PortUpdate → Option GoErr × List HttpReq
  | [] => (none, [])
  | u :: rest =>
    match makeAuthenticatedRequest env c (gs "POST") endpoint
        (buildPortData u) with
    | (.error e, tr) =>
      (some (NewOperationError (gs "failed to update port " ++ itoa u.portID)
        (some e)), tr)
    | (.ok response, tr) =>
      if extractErrorMessage response ≠ [] then
        (some (NewOperationError (gs "update failed for port " ++
          itoa u.portID ++ gs ": " ++ extractErrorMessage response) none), tr)
      else
        let r := portUpdateLoop env c endpoint rest
        (r.1, tr ++ r.2)

/-- `PortManager.UpdatePort`: authentication check, empty-list check,
model-specific endpoint, then the per-update loop. -/
def portUpdatePort (env : Env) (c : ClientState) (updates : List PortUpdate) :
    Option GoErr × List HttpReq :=
  if c.token = [] then (some ErrNotAuthenticated, [])
  else if updates = [] then
    (some (NewOperationError (gs "no updates provided") none), [])
  else if isModel30x c.model then
    portUpdateLoop env c (gs "/PortConfig.cgi") updates
  else if isModel316 c.model then
    portUpdateLoop env c (gs "/iss/specific/interface.html") updates
  else
    (some (NewOperationError
      (gs "port updates not supported for this model") none), [])

/-- The per-update loop of `POEManager.UpdatePort`. -/
def poeUpdateLoop (env : Env) (c : ClientState) (endpoint : GStr) :
    List POEPortUpdate → Option GoErr × List HttpReq
  | [] => (none, [])
  | u :: rest =>
    match makeAuthenticatedRequest env c (gs "POST") endpoint
        (buildPoeData u) with
    | (.error e, tr) =>
      (some (NewOperationError (gs "failed to update port " ++ itoa u.portID)
        (some e)), tr)
    | (.ok response, tr) =>
      if extractErrorMessage response ≠ [] then
        (some (NewOperationError (gs "update failed for port " ++
          itoa u.portID ++ gs ": " ++ extractErrorMessage response) none), tr)
      else
        let r := poeUpdateLoop env c endpoint rest
        (r.1, tr ++ r.2)

/-- `POEManager.UpdatePort`. -/
def poeUpdatePort (env : Env) (c : ClientState)
    (updates : List POEPortUpdate) : Option GoErr × List HttpReq :=
  if c.token = [] then (some ErrNotAuthenticated, [])
  else if updates = [] then
    (some (NewOperationError (gs "no updates provided") none), [])
  else if isModel30x c.model then
    poeUpdateLoop env c (gs "/PoEPortConfig.cgi") updates
  else if isModel316 c.model then
    poeUpdateLoop env c (gs "/iss/specific/poePortConf.html") updates
  else
    (some (NewOperationError
      (gs "POE updates not supported for this model") none), [])

/-! ### Helper lemmas for the client theorems -/

theorem valuesLookup_set (d : Values) (k : GStr) (v : GStr) :
    valuesLookup (valuesSet d k v) k = some [v] := by
  induction d with
  | nil => simp [valuesSet, valuesLookup]
  | cons kv t ih =>
    obtain ⟨k2, vs⟩ := kv
    by_cases hk : k2 = k
    · simp [valuesSet, valuesLookup, hk]
    · simp [valuesSet, valuesLookup, hk, ih]

theorem goStartsWith_append (p s : GStr) : goStartsWith (p ++ s) p = true := by
  induction p with
  | nil =>
    rw [List.nil_append]
    exact goStartsWith_nil s
  | cons c t ih =>
    rw [List.cons_append]
    unfold goStartsWith
    rw [if_pos rfl]
    exact ih

theorem goIndexOf_cut (s : GStr) :
    (match goIndexOf s ';' with
      | some i => s.take i
      | none => s) = s.takeWhile (fun c => decide (c ≠ ';')) := by
  induction s with
  | nil => rfl
  | cons c t ih =>
    by_cases hc : c = ';'
    · subst hc
      unfold goIndexOf
      rw [if_pos rfl]
      simp [List.takeWhile]
    · unfold goIndexOf
      rw [if_neg hc]
      cases h : goIndexOf t ';' with
      | none =>
        rw [h] at ih
        simp only [Option.map_none']
        simp only [List.takeWhile, hc]
        simp only [decide_not, h] at ih ⊢
        rw [← ih]
        simp [hc]
      | some i =>
        rw [h] at ih
        simp only [Option.map_some']
        simp only [List.takeWhile, hc]
        simp only [decide_not, h] at ih ⊢
        rw [← ih]
        simp [hc, List.take_succ_cons]

theorem authTypeOr (m : Model) :
    GetAuthenticationType m = authTypeSession ∨
    GetAuthenticationType m = authTypeGambit := by
  unfold GetAuthenticationType
  by_cases h : isModel316 m = true
  · rw [if_pos h]
    exact Or.inr rfl
  · rw [if_neg (by simpa using h)]
    exact Or.inl rfl

theorem session_ne_gambit : authTypeSession ≠ authTypeGambit := by decide

/-- The single request a GET dispatch emits. -/
theorem makeAuth_trace_get (env : Env) (c : ClientState) (path : GStr)
    (data : Values) (htok : c.token ≠ []) :
    (makeAuthenticatedRequest env c (gs "GET") path data).2 =
      [getReq (if 0 < (authData c data).length then
        path ++ gs "?" ++ valuesEncode (authData c data) else path)
        (authHeaders c)] := by
  simp only [makeAuthenticatedRequest]
  rw [if_neg htok, if_pos trivial]
  cases henv : env (getReq (if 0 < (authData c data).length then
      path ++ gs "?" ++ valuesEncode (authData c data) else path)
      (authHeaders c)) with
  | error e => rfl
  | ok resp => rfl

/-- The single request a non-GET dispatch emits. -/
theorem makeAuth_trace_nonget (env : Env) (c : ClientState)
    (method path : GStr) (data : Values) (htok : c.token ≠ [])
    (hm : method ≠ gs "GET") :
    (makeAuthenticatedRequest env c method path data).2 =
      [postReq path (authData c data) (authHeaders c)] := by
  simp only [makeAuthenticatedRequest]
  rw [if_neg htok, if_neg hm]
  cases henv : env (postReq path (authData c data) (authHeaders c)) with
  | error e => rfl
  | ok resp => rfl

/-! ### Claim C5 -/

/-- C5: without a credential, `makeAuthenticatedRequest` fails with
`ErrNotAuthenticated` and performs no network call (empty trace); with a
credential, a session-family model carries `Cookie: SID=<token>` on every
emitted request, a gambit-family model has `Gambit=<token>` set in the form
data, a GET with non-empty (decorated) form data emits exactly one request
with the data serialized into the query string and no body, and a POST
emits exactly one request with the decorated data as its body. -/
theorem C5_authenticated_request_dispatch :
    (∀ (env : Env) (c : ClientState) (method path : GStr) (data : Values),
      c.token = [] →
      makeAuthenticatedRequest env c method path data =
        (.error ErrNotAuthenticated, [])) ∧
    (∀ (env : Env) (c : ClientState) (method path : GStr) (data : Values),
      c.token ≠ [] →
      GetAuthenticationType c.model = authTypeSession →
      ∀ req ∈ (makeAuthenticatedRequest env c method path data).2,
        headerGet req.headers (gs "Cookie") = gs "SID=" ++ c.token) ∧
    (∀ (c : ClientState) (data : Values),
      GetAuthenticationType c.model = authTypeGambit →
      valuesLookup (authData c data) (gs "Gambit") = some [c.token]) ∧
    (∀ (env : Env) (c : ClientState) (path : GStr) (data : Values),
      c.token ≠ [] → authData c data ≠ [] →
      (makeAuthenticatedRequest env c (gs "GET") path data).2 =
        [getReq (path ++ gs "?" ++ valuesEncode (authData c data))
          (authHeaders c)] ∧
      (getReq (path ++ gs "?" ++ valuesEncode (authData c data))
        (authHeaders c)).formData = none) ∧
    (∀ (env : Env) (c : ClientState) (path : GStr) (data : Values),
      c.token ≠ [] →
      (makeAuthenticatedRequest env c (gs "POST") path data).2 =
        [postReq path (authData c data) (authHeaders c)]) := by
  refine ⟨?_, ?_, ?_, ?_, ?_⟩
  · intro env c method path data h
    simp only [makeAuthenticatedRequest]
    rw [if_pos h]
  · intro env c method path data htok hsess req hreq
    have hhdr : authHeaders c = [(gs "Cookie", gs "SID=" ++ c.token)] := by
      unfold authHeaders
      rw [if_pos hsess]
    have hget : headerGet [(gs "Cookie", gs "SID=" ++ c.token)]
        (gs "Cookie") = gs "SID=" ++ c.token := by
      unfold headerGet
      rw [if_pos rfl]
    by_cases hm : method = gs "GET"
    · subst hm
      rw [makeAuth_trace_get env c path data htok] at hreq
      simp only [List.mem_singleton] at hreq
      subst hreq
      show headerGet (authHeaders c) (gs "Cookie") = gs "SID=" ++ c.token
      rw [hhdr]
      exact hget
    · rw [makeAuth_trace_nonget env c method path data htok hm] at hreq
      simp only [List.mem_singleton] at hreq
      subst hreq
      show headerGet ((gs "Content-Type",
        gs "application/x-www-form-urlencoded") :: authHeaders c)
        (gs "Cookie") = gs "SID=" ++ c.token
      unfold headerGet
      rw [if_neg (by decide), hhdr]
      exact hget
  · intro c data hg
    unfold authData
    rw [if_pos hg]
    exact valuesLookup_set data (gs "Gambit") c.token
  · intro env c path data htok hdat
    have hlen : 0 < (authData c data).length := List.length_pos.mpr hdat
    refine ⟨?_, rfl⟩
    rw [makeAuth_trace_get env c path data htok, if_pos hlen]
  · intro env c path data htok
    exact makeAuth_trace_nonget env c (gs "POST") path data htok (by decide)

/-! ### Concrete fixtures used by the witness and counterexample
theorems -/

/-- A transport that always fails. -/
def envNetFail : Env := fun _ => .error (.raw (gs "connection refused"))

/-- A device that answers every request with an empty page. -/
def envOkEmpty : Env := fun _ =>
  .ok { headers := [], bodyResult := .ok [], statusCode := 200 }

/-- A device that answers every request with a benign page. -/
def envBenign : Env := fun _ =>
  .ok { headers := [], bodyResult := .ok (gs "ok"), statusCode := 200 }

/-- A mock family-A device: the login page carries the seed, the login POST
answers with the `SID` cookie. -/
def envSessionOk : Env := fun req =>
  if req.method = gs "GET" then
    .ok { headers := [],
          bodyResult := .ok (gs "<input id=\"rand\" value=\"1234567890\">"),
          statusCode := 200 }
  else
    .ok { headers := [(gs "Set-Cookie", gs "SID=tok1;Path=/")],
          bodyResult := .ok [], statusCode := 200 }

/-- A device whose pages name the model `GS305EP`. -/
def envDetect : Env := fun _ =>
  .ok { headers := [], bodyResult := .ok (gs "GS305EP console"),
        statusCode := 200 }

/-- An authenticated session-family client. -/
def clientSession : ClientState :=
  { address := gs "sw", model := gs "GS305EP", token := gs "tok1" }

/-- An authenticated gambit-family client. -/
def clientGambit : ClientState :=
  { address := gs "sw", model := gs "GS316EP", token := gs "tok2" }

/-- A detected but unauthenticated client. -/
def clientNoToken : ClientState :=
  { address := gs "sw", model := gs "GS305EP", token := [] }

/-- A token-manager over a unit state that always succeeds. -/
def tmUnit : TokenMgrOps Unit := { store := fun s _ _ _ => (s, none) }

/-- A password collaborator that never finds anything. -/
def pmEmpty : PwLookup := fun _ => none

/-- A password collaborator that resolves every address to `pw`. -/
def pmConst : PwLookup := fun _ =>
  some { host := gs "sw", password := gs "pw", modelHint := [] }

/-- A login response with no cookie whose body reports an error. -/
def respDeviceError : HttpResponse :=
  { headers := [], bodyResult := .ok (gs "alert(\"bad password\")"),
    statusCode := 200 }

/-- A login response with no cookie and a silent body. -/
def respSilent : HttpResponse :=
  { headers := [], bodyResult := .ok (gs "hello"), statusCode := 200 }

/-- Witness for C5 at concrete inputs. -/
theorem C5_authenticated_request_dispatch_witness :
    makeAuthenticatedRequest envOkEmpty clientNoToken (gs "GET") (gs "/p") []
      = (.error ErrNotAuthenticated, []) ∧
    headerGet (getReq (gs "/p") (authHeaders clientSession)).headers
      (gs "Cookie") = gs "SID=" ++ clientSession.token ∧
    valuesLookup (authData clientGambit []) (gs "Gambit") =
      some [clientGambit.token] ∧
    (makeAuthenticatedRequest envOkEmpty clientGambit (gs "GET") (gs "/p")
      []).2 = [getReq (gs "/p" ++ gs "?" ++
        valuesEncode (authData clientGambit []))
        (authHeaders clientGambit)] ∧
    (makeAuthenticatedRequest envOkEmpty clientSession (gs "POST") (gs "/p")
      []).2 = [postReq (gs "/p") (authData clientSession [])
        (authHeaders clientSession)] :=
  ⟨C5_authenticated_request_dispatch.1 envOkEmpty clientNoToken (gs "GET")
      (gs "/p") [] rfl,
   C5_authenticated_request_dispatch.2.1 envOkEmpty clientSession (gs "GET")
      (gs "/p") [] (by decide) (by decide)
      (getReq (gs "/p") (authHeaders clientSession)) (by decide),
   C5_authenticated_request_dispatch.2.2.1 clientGambit [] (by decide),
   (C5_authenticated_request_dispatch.2.2.2.1 envOkEmpty clientGambit
      (gs "/p") [] (by decide) (by decide)).1,
   C5_authenticated_request_dispatch.2.2.2.2 envOkEmpty clientSession
      (gs "/p") [] (by decide)⟩

/-! ### Claim C6 -/

/-- C6: the session token is the `Set-Cookie` value's remainder after the
`SID=` prefix, cut at the first `;`; when the extracted token is empty the
login outcome surfaces a device-reported body message if one is found and
is `ErrInvalidCredentials` otherwise. -/
theorem C6_session_token_extraction :
    (∀ rest : GStr, extractSessionToken (gs "SID=" ++ rest) =
      rest.takeWhile (fun c => decide (c ≠ ';'))) ∧
    extractSessionToken (gs "SID=tok1;Path=/") = gs "tok1" ∧
    (∀ resp : HttpResponse,
      extractSessionToken (headerGet resp.headers (gs "Set-Cookie")) = [] →
      (extractErrorMessage (goValueOrEmpty resp.bodyResult) ≠ [] →
        sessionTokenOutcome resp =
          .error (NewAuthError (gs "login failed: " ++
            extractErrorMessage (goValueOrEmpty resp.bodyResult)) none)) ∧
      (extractErrorMessage (goValueOrEmpty resp.bodyResult) = [] →
        sessionTokenOutcome resp = .error ErrInvalidCredentials)) := by
  refine ⟨?_, by decide, ?_⟩
  · intro rest
    simp only [extractSessionToken, extractTokenWithPres]
    rw [if_pos (goStartsWith_append (gs "SID=") rest)]
    rw [List.drop_left]
    exact goIndexOf_cut rest
  · intro resp h
    simp only [sessionTokenOutcome]
    rw [h, if_pos rfl]
    constructor
    · intro hm
      rw [if_pos hm]
    · intro hm
      rw [if_neg (fun hh => hh hm)]

/-- Witness for C6 at concrete inputs. -/
theorem C6_session_token_extraction_witness :
    extractSessionToken (gs "SID=" ++ gs "abc;d") =
      (gs "abc;d").takeWhile (fun c => decide (c ≠ ';')) ∧
    sessionTokenOutcome respDeviceError =
      .error (NewAuthError (gs "login failed: " ++
        extractErrorMessage (goValueOrEmpty respDeviceError.bodyResult))
        none) ∧
    sessionTokenOutcome respSilent = .error ErrInvalidCredentials :=
  ⟨C6_session_token_extraction.1 (gs "abc;d"),
   (C6_session_token_extraction.2.2 respDeviceError (by decide)).1 (by decide),
   (C6_session_token_extraction.2.2 respSilent (by decide)).2 (by decide)⟩

/-! ### Claim C7 -/

/-- C7 (amended): on an empty password, the plain client rejects
immediately with `password cannot be empty`; the password-manager client
with no collaborator does the same; with a collaborator that finds nothing
it fails with `no password provided and no environment variable found`;
with a collaborator that resolves a configuration it proceeds with the
resolved password.  All failure cases emit no network request. -/
theorem C7_empty_password_resolution :
    (∀ (sigma : Type) (env : Env) (tm : TokenMgrOps sigma) (tmSt : sigma)
      (c : ClientState),
      Login env tm tmSt c [] =
        (c, tmSt, some (NewAuthError (gs "password cannot be empty") none),
          [])) ∧
    (∀ (sigma : Type) (env : Env) (tm : TokenMgrOps sigma) (tmSt : sigma)
      (c : ClientState),
      LoginPM env tm tmSt none c [] =
        (c, tmSt, some (NewAuthError (gs "password cannot be empty") none),
          [])) ∧
    (∀ (sigma : Type) (env : Env) (tm : TokenMgrOps sigma) (tmSt : sigma)
      (lookup : PwLookup) (c : ClientState),
      lookup c.address = none →
      LoginPM env tm tmSt (some lookup) c [] =
        (c, tmSt, some (NewAuthError
          (gs "no password provided and no environment variable found")
          none), [])) ∧
    (∀ (sigma : Type) (env : Env) (tm : TokenMgrOps sigma) (tmSt : sigma)
      (lookup : PwLookup) (config : SwitchConfig) (c : ClientState),
      lookup c.address = some config →
      LoginPM env tm tmSt (some lookup) c [] =
        loginCore env tm tmSt c config.password) := by
  refine ⟨?_, ?_, ?_, ?_⟩
  · intro sigma env tm tmSt c
    rfl
  · intro sigma env tm tmSt c
    rfl
  · intro sigma env tm tmSt lookup c h
    simp [LoginPM, h]
  · intro sigma env tm tmSt lookup config c h
    simp [LoginPM, h]

/-- Witness for C7 at concrete inputs. -/
theorem C7_empty_password_resolution_witness :
    Login envNetFail tmUnit () clientNoToken [] =
      (clientNoToken, (),
        some (NewAuthError (gs "password cannot be empty") none), []) ∧
    LoginPM envNetFail tmUnit () (some pmEmpty) clientNoToken [] =
      (clientNoToken, (),
        some (NewAuthError
          (gs "no password provided and no environment variable found")
          none), []) ∧
    LoginPM envNetFail tmUnit () (some pmConst) clientNoToken [] =
      loginCore envNetFail tmUnit () clientNoToken (gs "pw") :=
  ⟨C7_empty_password_resolution.1 Unit envNetFail tmUnit () clientNoToken,
   C7_empty_password_resolution.2.2.1 Unit envNetFail tmUnit () pmEmpty
     clientNoToken rfl,
   C7_empty_password_resolution.2.2.2 Unit envNetFail tmUnit () pmConst
     { host := gs "sw", password := gs "pw", modelHint := [] }
     clientNoToken rfl⟩

/-- Counterexample to C7 as stated: with a collaborator configured and
resolution failing, the error message is not `password cannot be empty`. -/
theorem C7_resolution_error_counterexample :
    (LoginPM envNetFail tmUnit () (some pmEmpty) clientNoToken []).2.2.1 =
      some (NewAuthError
        (gs "no password provided and no environment variable found")
        none) ∧
    (LoginPM envNetFail tmUnit () (some pmEmpty) clientNoToken []).2.2.1 ≠
      some (NewAuthError (gs "password cannot be empty") none) := by
  constructor
  · rfl
  · decide

/-! ### Claim C8 -/

/-- A 30x-series model authenticates with the session family. -/
theorem model30x_session (m : Model) (h : isModel30x m = true) :
    GetAuthenticationType m = authTypeSession := by
  unfold isModel30x at h
  rcases of_decide_eq_true h with h1 | h1 | h1 | h1 | h1 <;> subst h1 <;>
    decide

/-- The authentication switch leaves a session-family client's form data
unchanged. -/
theorem authData_session (c : ClientState) (data : Values)
    (h : GetAuthenticationType c.model = authTypeSession) :
    authData c data = data := by
  unfold authData
  rw [h, if_neg (by decide)]

/-- The trace of a one-record port-update loop is the single POST of that
record's decorated data. -/
theorem portUpdateLoop_single_trace (env : Env) (c : ClientState)
    (endpoint : GStr) (u : PortUpdate) (htok : c.token ≠ []) :
    (portUpdateLoop env c endpoint [u]).2 =
      [postReq endpoint (authData c (buildPortData u)) (authHeaders c)] := by
  have htr := makeAuth_trace_nonget env c (gs "POST") endpoint
    (buildPortData u) htok (by decide)
  rcases hmk : makeAuthenticatedRequest env c (gs "POST") endpoint
      (buildPortData u) with ⟨res, tr⟩
  rw [hmk] at htr
  cases res with
  | error e =>
    simp only [portUpdateLoop, hmk]
    simpa using htr
  | ok response =>
    simp only [portUpdateLoop, hmk]
    by_cases hmsg : extractErrorMessage response ≠ []
    · rw [if_pos hmsg]
      simpa using htr
    · rw [if_neg hmsg]
      simpa using htr

/-- The trace of a one-record POE-update loop is the single POST of that
record's decorated data. -/
theorem poeUpdateLoop_single_trace (env : Env) (c : ClientState)
    (endpoint : GStr) (u : POEPortUpdate) (htok : c.token ≠ []) :
    (poeUpdateLoop env c endpoint [u]).2 =
      [postReq endpoint (authData c (buildPoeData u)) (authHeaders c)] := by
  have htr := makeAuth_trace_nonget env c (gs "POST") endpoint
    (buildPoeData u) htok (by decide)
  rcases hmk : makeAuthenticatedRequest env c (gs "POST") endpoint
      (buildPoeData u) with ⟨res, tr⟩
  rw [hmk] at htr
  cases res with
  | error e =>
    simp only [poeUpdateLoop, hmk]
    simpa using htr
  | ok response =>
    simp only [poeUpdateLoop, hmk]
    by_cases hmsg : extractErrorMessage response ≠ []
    · rw [if_pos hmsg]
      simpa using htr
    · rw [if_neg hmsg]
      simpa using htr

/-- C8 (amended): an empty updates list is rejected as the `no updates
provided` Operation error without any network call; an update record with
no optional field set is not rejected — it is transmitted, as a single POST
to the model's endpoint whose form data holds only the port number. -/
theorem C8_noop_update_handling :
    (∀ (env : Env) (c : ClientState), c.token ≠ [] →
      portUpdatePort env c [] =
        (some (NewOperationError (gs "no updates provided") none), [])) ∧
    (∀ (env : Env) (c : ClientState), c.token ≠ [] →
      poeUpdatePort env c [] =
        (some (NewOperationError (gs "no updates provided") none), [])) ∧
    (∀ (env : Env) (c : ClientState) (id : Int),
      c.token ≠ [] → isModel30x c.model = true →
      (portUpdatePort env c [{ portID := id }]).2 =
        [postReq (gs "/PortConfig.cgi")
          (buildPortData { portID := id }) (authHeaders c)]) ∧
    (∀ (env : Env) (c : ClientState) (id : Int),
      c.token ≠ [] → isModel30x c.model = true →
      (poeUpdatePort env c [{ portID := id }]).2 =
        [postReq (gs "/PoEPortConfig.cgi")
          (buildPoeData { portID := id }) (authHeaders c)]) ∧
    (∀ id : Int, buildPortData { portID := id } =
      valuesSet [] (gs "port") (itoa id)) ∧
    (∀ id : Int, buildPoeData { portID := id } =
      valuesSet [] (gs "port") (itoa id)) := by
  refine ⟨?_, ?_, ?_, ?_, fun id => rfl, fun id => rfl⟩
  · intro env c h
    simp only [portUpdatePort]
    rw [if_neg h, if_pos trivial]
  · intro env c h
    simp only [poeUpdatePort]
    rw [if_neg h, if_pos trivial]
  · intro env c id htok h30
    simp only [portUpdatePort]
    rw [if_neg htok, if_neg (by simp), if_pos h30]
    rw [portUpdateLoop_single_trace env c (gs "/PortConfig.cgi")
      { portID := id } htok]
    rw [authData_session c _ (model30x_session c.model h30)]
  · intro env c id htok h30
    simp only [poeUpdatePort]
    rw [if_neg htok, if_neg (by simp), if_pos h30]
    rw [poeUpdateLoop_single_trace env c (gs "/PoEPortConfig.cgi")
      { portID := id } htok]
    rw [authData_session c _ (model30x_session c.model h30)]

/-- Witness for C8 at concrete inputs. -/
theorem C8_noop_update_handling_witness :
    portUpdatePort envBenign clientSession [] =
      (some (NewOperationError (gs "no updates provided") none), []) ∧
    poeUpdatePort envBenign clientSession [] =
      (some (NewOperationError (gs "no updates provided") none), []) ∧
    (portUpdatePort envBenign clientSession [{ portID := 2 }]).2 =
      [postReq (gs "/PortConfig.cgi") (buildPortData { portID := 2 })
        (authHeaders clientSession)] ∧
    (poeUpdatePort envBenign clientSession [{ portID := 2 }]).2 =
      [postReq (gs "/PoEPortConfig.cgi") (buildPoeData { portID := 2 })
        (authHeaders clientSession)] :=
  ⟨C8_noop_update_handling.1 envBenign clientSession (by decide),
   C8_noop_update_handling.2.1 envBenign clientSession (by decide),
   C8_noop_update_handling.2.2.1 envBenign clientSession 2 (by decide)
     (by decide),
   C8_noop_update_handling.2.2.2.1 envBenign clientSession 2 (by decide)
     (by decide)⟩

/-- Counterexample to C8 as stated: an all-optional-fields-absent update
record is transmitted (one POST carrying only the port number) and returns
no error, instead of being rejected as a no-op Operation error. -/
theorem C8_all_nil_update_counterexample :
    portUpdatePort envBenign clientSession [{ portID := 1 }] =
      (none, [postReq (gs "/PortConfig.cgi")
        (valuesSet [] (gs "port") (gs "1"))
        [(gs "Cookie", gs "SID=tok1")]]) := by
  decide

/-! ### Claim C9 -/

/-- The final guard of `detectModel` only lets supported models through. -/
theorem detect_final_guard (x : GStr) (tr2 : List HttpReq) (m : Model)
    (tr : List HttpReq)
    (h : (if x = [] then ((Except.error ErrModelNotDetected :
          Except GoErr Model), tr2)
        else if !(isSupported x) then
          (Except.error (NewModelError (gs "detected model " ++ x ++
            gs " is not supported") none), tr2)
        else (Except.ok x, tr2)) = (Except.ok m, tr)) :
    isSupported m = true := by
  split_ifs at h with h1 h2
  · exact Except.noConfusion (congrArg Prod.fst h)
  · exact Except.noConfusion (congrArg Prod.fst h)
  · have hx := Except.ok.inj (congrArg Prod.fst h)
    rw [← hx]
    simpa using h2

/-- `detectModel` never returns an unsupported model. -/
theorem detectModel_ok_supported (env : Env) (m : Model)
    (tr : List HttpReq) (h : detectModel env = (.ok m, tr)) :
    isSupported m = true := by
  simp only [detectModel] at h
  rcases h1 : env (getReq (gs "/") []) with e | resp
  · simp only [h1] at h
    exact Except.noConfusion (congrArg Prod.fst h)
  · rcases h2 : resp.bodyResult with e2 | body
    · simp only [h1, h2] at h
      exact Except.noConfusion (congrArg Prod.fst h)
    · simp only [h1, h2] at h
      exact detect_final_guard _ _ m tr h

/-- `fileReadToken` never returns an unsupported model. -/
theorem fileReadToken_ok_supported (contents : Option GStr) (tok : GStr)
    (m : Model) (h : fileReadToken contents = .ok (tok, m)) :
    isSupported m = true := by
  cases contents with
  | none =>
    simp only [fileReadToken] at h
    exact Except.noConfusion h
  | some content =>
    simp only [fileReadToken] at h
    split_ifs at h with h1 h2 h3
    have hx := Except.ok.inj h
    have hm2 : goTrimSpace (splitFirst content ':').1 = m :=
      congrArg Prod.snd hx
    rw [← hm2]
    simpa using h3

/-- C9: every model maps to exactly one of the two families (the 316 series
to gambit, every other supported model to session), and the two operations
that accept a model string from outside — model detection and reading a
persisted token file — only ever produce supported models, rejecting
anything else with a hard error. -/
theorem C9_model_family_invariant :
    (∀ m : Model, GetAuthenticationType m = authTypeSession ∨
      GetAuthenticationType m = authTypeGambit) ∧
    authTypeSession ≠ authTypeGambit ∧
    (∀ m : Model, isSupported m = true →
      (GetAuthenticationType m = authTypeGambit ↔
        (m = gs "GS316EP" ∨ m = gs "GS316EPP"))) ∧
    (∀ (env : Env) (m : Model) (tr : List HttpReq),
      detectModel env = (.ok m, tr) → isSupported m = true) ∧
    (∀ (fs : FileSys) (addr tok : GStr) (m : Model),
      fileGetToken fs addr = .ok (tok, m) → isSupported m = true) := by
  refine ⟨authTypeOr, session_ne_gambit, ?_, ?_, ?_⟩
  · intro m hm
    rcases supported_cases m hm with h | h | h | h | h | h | h <;> subst h <;>
      decide
  · intro env m tr h
    exact detectModel_ok_supported env m tr h
  · intro fs addr tok m h
    exact fileReadToken_ok_supported (fs (tokenFilename addr)) tok m h

/-- Witness for C9 at concrete inputs. -/
theorem C9_model_family_invariant_witness :
    GetAuthenticationType (gs "GS316EP") = authTypeGambit ∧
    isSupported (gs "GS305EP") = true ∧
    isSupported (gs "GS308EP") = true :=
  ⟨(C9_model_family_invariant.2.2.1 (gs "GS316EP") (by decide)).mpr
      (Or.inl rfl),
   C9_model_family_invariant.2.2.2.1 envDetect (gs "GS305EP")
      [getReq (gs "/") []] (by decide),
   C9_model_family_invariant.2.2.2.2 (fun _ => some (gs "GS308EP:zz"))
      (gs "a") (gs "zz") (gs "GS308EP") (by decide)⟩

/-! ### Claim C10 -/

/-- C10: `Login` is atomic on the client's in-memory state — on any failure
the token, model (and the token store) are exactly what they were before;
on success the model and address are unchanged and the token is exactly the
one the selected protocol variant returned. -/
theorem C10_login_atomicity (sigma : Type) (env : Env)
    (tm : TokenMgrOps sigma) (tmSt : sigma) (c : ClientState)
    (password : GStr) :
    (∀ e : GoErr, (Login env tm tmSt c password).2.2.1 = some e →
      (Login env tm tmSt c password).1 = c ∧
      (Login env tm tmSt c password).2.1 = tmSt) ∧
    ((Login env tm tmSt c password).2.2.1 = none →
      (Login env tm tmSt c password).1.address = c.address ∧
      (Login env tm tmSt c password).1.model = c.model ∧
      ((GetAuthenticationType c.model = authTypeSession ∧
        (loginWithSession env password).1 =
          .ok (Login env tm tmSt c password).1.token) ∨
       (GetAuthenticationType c.model = authTypeGambit ∧
        (loginWithGambit env password).1 =
          .ok (Login env tm tmSt c password).1.token))) := by
  by_cases hp : password = []
  · subst hp
    constructor
    · intro e _
      exact ⟨rfl, rfl⟩
    · intro hn
      simp [Login] at hn
  · have hL : Login env tm tmSt c password =
        loginCore env tm tmSt c password := by
      simp [Login, hp]
    rw [hL]
    rcases authTypeOr c.model with hs | hg
    · have hc : loginCore env tm tmSt c password =
          match loginWithSession env password with
          | (.error e, tr) => (c, tmSt, some e, tr)
          | (.ok token, tr) =>
            ({ c with token := token },
              (tm.store tmSt c.address token c.model).1, none, tr) := by
        simp only [loginCore]
        rw [hs, if_pos rfl]
      rw [hc]
      rcases hlw : loginWithSession env password with ⟨res, tr⟩
      cases res with
      | error e0 =>
        constructor
        · intro e _
          exact ⟨rfl, rfl⟩
        · intro hn
          exact Option.noConfusion hn
      | ok token =>
        constructor
        · intro e he
          exact Option.noConfusion he
        · intro _
          refine ⟨rfl, rfl, Or.inl ⟨hs, ?_⟩⟩
          rfl
    · have hc : loginCore env tm tmSt c password =
          match loginWithGambit env password with
          | (.error e, tr) => (c, tmSt, some e, tr)
          | (.ok token, tr) =>
            ({ c with token := token },
              (tm.store tmSt c.address token c.model).1, none, tr) := by
        simp only [loginCore]
        rw [hg, if_neg (by decide), if_pos rfl]
      rw [hc]
      rcases hlw : loginWithGambit env password with ⟨res, tr⟩
      cases res with
      | error e0 =>
        constructor
        · intro e _
          exact ⟨rfl, rfl⟩
        · intro hn
          exact Option.noConfusion hn
      | ok token =>
        constructor
        · intro e he
          exact Option.noConfusion he
        · intro _
          refine ⟨rfl, rfl, Or.inr ⟨hg, ?_⟩⟩
          rfl

/-- Witness for C10: a failed login leaves the state untouched; a
successful login keeps the model. -/
theorem C10_login_atomicity_witness :
    (Login envNetFail tmUnit () clientNoToken (gs "secret")).1 =
      clientNoToken ∧
    (Login envSessionOk tmUnit () clientNoToken (gs "secret")).1.model =
      clientNoToken.model :=
  ⟨((C10_login_atomicity Unit envNetFail tmUnit () clientNoToken
      (gs "secret")).1 (NewAuthError (gs "failed to get seed value")
        (some (.raw (gs "connection refused")))) (by decide)).1,
   ((C10_login_atomicity Unit envSessionOk tmUnit () clientNoToken
      (gs "secret")).2 (by decide)).2.1⟩

end Ntgrrc
